import Mathlib

/-!
Verification development for the `openai-realtime-webrtc` session connection
manager.  The definitions below are a shallow embedding of the provider module
(`OpenAIRealtimeWebRTC.tsx`): the session state record, the reducer, the
connection controller (ICE-state handler, timers, reconnection), the
data-channel message dispatcher, `sendClientEvent` and `disconnect`.
Timestamps are modelled as epoch-milliseconds (`Nat`); JS numbers that take
part in arithmetic (`remaining`, `reset_seconds`, durations) are modelled as
rationals; ISO-string timestamps stored in the state are modelled by their
numeric epoch-millisecond value.  Host collaborators (the JSON parser, the
random id source, the success of a physical channel send) are passed in as
explicit parameters.
-/

namespace OpenAIRealtimeWebRTC

/-- `ConnectionStatus` enum from the types module (used by the provider). -/
inductive ConnectionStatus
  | CONNECTING
  | CONNECTED
  | DISCONNECTED
  | RECONNECTING
  | FAILED
  | CLOSED
deriving DecidableEq, Repr

/-- `Modality` enum: negotiated interaction medium. -/
inductive Modality
  | TEXT
  | AUDIO
deriving DecidableEq, Repr

/-- `TranscriptType` enum. -/
inductive TranscriptType
  | INPUT
  | OUTPUT
deriving DecidableEq, Repr

/-- `ConversationRole` enum. -/
inductive ConversationRole
  | USER
  | ASSISTANT
deriving DecidableEq, Repr

/-- `Transcript` record: `{content, timestamp (epoch ms), type, role}`. -/
structure Transcript where
  content : String
  timestamp : Nat
  type : TranscriptType
  role : ConversationRole
deriving DecidableEq, Repr

/-- `TokenUsage` record carried by `response.done` bookkeeping. -/
structure TokenUsage where
  inputTokens : Int
  outputTokens : Int
  totalTokens : Int
deriving DecidableEq, Repr

/-- `RateLimit` record from `rate_limits.updated` events. -/
structure RateLimit where
  name : String
  remaining : ℚ
  reset_seconds : ℚ
deriving DecidableEq, Repr

/-- Ready state of an `RTCDataChannel` (host transport handle). -/
inductive RTCDataChannelState
  | connecting
  | «open»
  | closing
  | closed
deriving DecidableEq, Repr

/-- Non-owning reference to a data channel; only `readyState` is consulted
by the embedded code. -/
structure DataChannelRef where
  readyState : RTCDataChannelState
deriving DecidableEq, Repr

/-- Opaque non-owning reference to a media stream. -/
structure MediaStreamRef where
  mid : Nat
deriving DecidableEq, Repr

/-- Opaque non-owning reference to a peer connection. -/
structure PeerConnectionRef where
  pid : Nat
deriving DecidableEq, Repr

/-- The `RealtimeSession` snapshot, with the fields the provider reads or
writes.  Optional TS fields are `Option`; ISO timestamp strings are modelled
by epoch-millisecond values. -/
structure RealtimeSession where
  id : String
  modalities : List Modality
  connectionStatus : Option ConnectionStatus
  hasAudio : Bool
  isMuted : Bool
  transcripts : List Transcript
  tokenUsage : Option TokenUsage
  rateLimits : List RateLimit
  rateLimitResetTime : Option ℚ
  isRateLimited : Bool
  startTime : Option Nat
  endTime : Option Nat
  duration : Option ℚ
  lastStateChange : Option Nat
  mediaStream : Option MediaStreamRef
  dataChannel : Option DataChannelRef
  peer_connection : Option PeerConnectionRef
deriving DecidableEq, Repr

/-- A `Partial<RealtimeSession>` payload for `UPDATE_SESSION`, restricted to
the fields the provider ever patches.  A `some` field overwrites (JS object
spread); `none` leaves the field alone. -/
structure SessionPatch where
  id : Option String
  connectionStatus : Option (Option ConnectionStatus)
  hasAudio : Option Bool
  lastStateChange : Option (Option Nat)
  mediaStream : Option (Option MediaStreamRef)
  endTime : Option (Option Nat)
  duration : Option (Option ℚ)
deriving DecidableEq, Repr

/-- The empty patch (`{}`). -/
def SessionPatch.empty : SessionPatch :=
  ⟨none, none, none, none, none, none, none⟩

/-- JS spread `{...state, ...payload}` for the patchable fields. -/
def applyPatch (s : RealtimeSession) (p : SessionPatch) : RealtimeSession :=
  { s with
    id := p.id.getD s.id
    connectionStatus := p.connectionStatus.getD s.connectionStatus
    hasAudio := p.hasAudio.getD s.hasAudio
    lastStateChange := p.lastStateChange.getD s.lastStateChange
    mediaStream := p.mediaStream.getD s.mediaStream
    endTime := p.endTime.getD s.endTime
    duration := p.duration.getD s.duration }

/-- The reducer action union.  `unrecognized tag` stands for a runtime action
object whose `type` string matches none of the enum cases (hitting the
reducer's `default` branch). -/
inductive SessionAction
  | INIT_SESSION (payload : RealtimeSession)
  | UPDATE_SESSION (payload : SessionPatch)
  | ADD_TRANSCRIPT (transcript : Transcript)
  | UPDATE_TOKEN_USAGE (tokenUsage : TokenUsage)
  | MUTE_SESSION_AUDIO
  | UNMUTE_SESSION_AUDIO
  | UPDATE_RATE_LIMITS (rateLimits : List RateLimit)
      (rateLimitResetTime : Option ℚ) (isRateLimited : Bool)
  | unrecognized (tag : String)
deriving DecidableEq, Repr

/-- Whether the action is `INIT_SESSION`. -/
def SessionAction.isInit : SessionAction → Bool
  | .INIT_SESSION _ => true
  | _ => false

/-- Whether the action is an unrecognized runtime action. -/
def SessionAction.isUnrecognized : SessionAction → Bool
  | .unrecognized _ => true
  | _ => false

/-- `sessionReducer`: pure transition function of the state store.  A thrown
`Error` is modelled as `Except.error`. -/
def sessionReducer (state : Option RealtimeSession) (action : SessionAction) :
    Except String (Option RealtimeSession) :=
  match action with
  | .INIT_SESSION payload => .ok (some payload)
  | .UPDATE_SESSION payload =>
    match state with
    | none => .ok none
    | some s => .ok (some (applyPatch s payload))
  | .ADD_TRANSCRIPT t =>
    match state with
    | none => .ok none
    | some s => .ok (some { s with transcripts := s.transcripts ++ [t] })
  | .UPDATE_TOKEN_USAGE u =>
    match state with
    | none => .ok none
    | some s => .ok (some { s with tokenUsage := some u })
  | SessionAction.MUTE_SESSION_AUDIO =>
    match state with
    | none => .ok none
    | some s => .ok (some { s with isMuted := true })
  | SessionAction.UNMUTE_SESSION_AUDIO =>
    match state with
    | none => .ok none
    | some s => .ok (some { s with isMuted := false })
  | .UPDATE_RATE_LIMITS rl rt lim =>
    match state with
    | none => .ok none
    | some s =>
      .ok (some { s with rateLimits := rl, rateLimitResetTime := rt,
                         isRateLimited := lim })
  | .unrecognized tag => .error ("Unhandled action type: " ++ tag)

/-- `dispatch` as used inside the provider: all actions dispatched by the
provider are recognized, so the error branch is unreachable there; it keeps
the state unchanged. -/
def dispatchA (state : Option RealtimeSession) (a : SessionAction) :
    Option RealtimeSession :=
  match sessionReducer state a with
  | .ok st => st
  | .error _ => state

/-! ### Connection controller (`connect`, `monitorConnectionState`, timers) -/

/-- The ICE connectivity states of the host peer connection. -/
inductive RTCIceConnectionState
  | new
  | checking
  | connected
  | completed
  | disconnected
  | failed
  | closed
deriving DecidableEq, Repr

/-- The three kinds of `setTimeout` the provider arms.
`guardedIceTimeout` is the timer armed before `monitorConnectionState`
(its callback checks `pc.iceConnectionState !== connected` before cleanup);
`plainIceTimeout` is the timer armed inside `monitorConnectionState`
(its callback runs cleanup unconditionally); `reconnectDelay` is the 2000 ms
delay armed on an ICE `disconnected` event. -/
inductive TimerKind
  | guardedIceTimeout
  | plainIceTimeout
  | reconnectDelay
deriving DecidableEq, Repr

/-- An armed, not-yet-fired, not-yet-cleared timer. -/
structure Timer where
  tid : Nat
  kind : TimerKind
  due : Nat
deriving DecidableEq, Repr

/-- The observable state of one `connect()` call's controller: the session
snapshot in the store, the `iceTimeoutId` variable, the armed timers, the
peer connection's current ICE state, and counters for reconnection attempts
(initiated / still awaiting their async outcome), cleanup runs, handler
throws, and the error thrown out of `connect()` if any. -/
structure Ctrl where
  session : Option RealtimeSession
  iceTimeoutId : Option Nat
  timers : List Timer
  iceState : RTCIceConnectionState
  nextTimerId : Nat
  attemptsInitiated : Nat
  attemptsInFlight : Nat
  cleanupRuns : Nat
  handlerErrors : Nat
  thrownError : Option String
deriving DecidableEq, Repr

/-- `cleanupWebRTCResources`: counts the run and nulls the owned transport
handles on the session object (direct mutation, not via the reducer). -/
def runCleanup (c : Ctrl) : Ctrl :=
  let c1 := { c with cleanupRuns := c.cleanupRuns + 1 }
  match c1.session with
  | none => c1
  | some s =>
    { c1 with session := some { s with mediaStream := none, dataChannel := none,
                                       peer_connection := none } }

/-- `clearTimeout(iceTimeoutId); iceTimeoutId = null` when the variable is
set; otherwise a no-op. -/
def clearIceTimeout (c : Ctrl) : Ctrl :=
  match c.iceTimeoutId with
  | none => c
  | some t =>
    { c with iceTimeoutId := none,
             timers := c.timers.filter (fun tm => tm.tid ≠ t) }

/-- Dispatch `UPDATE_SESSION {connectionStatus, lastStateChange}`. -/
def setStatus (c : Ctrl) (st : ConnectionStatus) (now : Nat) : Ctrl :=
  { c with session := dispatchA c.session (.UPDATE_SESSION
      { SessionPatch.empty with connectionStatus := some (some st),
                                lastStateChange := some (some now) }) }

/-- The `oniceconnectionstatechange` handler body (`monitorConnectionState`).
The peer connection's state has already changed when the handler runs.  The
`new` state hits the `default` branch, which throws. -/
def iceHandler (now : Nat) (st : RTCIceConnectionState) (c : Ctrl) : Ctrl :=
  let c := { c with iceState := st }
  match st with
  | .checking => setStatus c .CONNECTING now
  | .connected => setStatus (clearIceTimeout c) .CONNECTED now
  | .completed => setStatus (clearIceTimeout c) .CONNECTED now
  | .disconnected =>
    let c := setStatus c .DISCONNECTED now
    { c with timers := c.timers ++ [⟨c.nextTimerId, .reconnectDelay, now + 2000⟩],
             nextTimerId := c.nextTimerId + 1 }
  | .failed => runCleanup (setStatus (clearIceTimeout c) .FAILED now)
  | .closed => runCleanup (setStatus (clearIceTimeout c) .CLOSED now)
  | .new => { c with handlerErrors := c.handlerErrors + 1 }

/-- A timer callback firing.  A cleared or already-fired id is a no-op (as
with the host timer queue).  A `reconnectDelay` fire dispatches RECONNECTING
and invokes `attemptReconnection` (one more attempt initiated, one more in
flight). -/
def timerFire (now : Nat) (id : Nat) (c : Ctrl) : Ctrl :=
  match c.timers.find? (fun tm => tm.tid = id) with
  | none => c
  | some tm =>
    let c := { c with timers := c.timers.filter (fun x => x.tid ≠ id) }
    match tm.kind with
    | .guardedIceTimeout => if c.iceState ≠ .connected then runCleanup c else c
    | .plainIceTimeout => runCleanup c
    | .reconnectDelay =>
      let c := setStatus c .RECONNECTING now
      { c with attemptsInitiated := c.attemptsInitiated + 1,
               attemptsInFlight := c.attemptsInFlight + 1 }

/-- Completion of an in-flight `attemptReconnection`: on success it
dispatches CONNECTED; on failure it only logs. -/
def reconnectFinish (now : Nat) (ok : Bool) (c : Ctrl) : Ctrl :=
  let c := { c with attemptsInFlight := c.attemptsInFlight - 1 }
  if ok then setStatus c .CONNECTED now else c

/-- One event on the single-threaded loop: an ICE connectivity-state change,
a timer firing, or an in-flight reconnection attempt completing. -/
inductive LoopEvent
  | ice (now : Nat) (st : RTCIceConnectionState)
  | fire (now : Nat) (id : Nat)
  | reconnectDone (now : Nat) (ok : Bool)
deriving DecidableEq, Repr

/-- The wall-clock time of an event. -/
def evTime : LoopEvent → Nat
  | .ice n _ => n
  | .fire n _ => n
  | .reconnectDone n _ => n

/-- One loop step. -/
def stepEv (c : Ctrl) (e : LoopEvent) : Ctrl :=
  match e with
  | .ice n s => iceHandler n s c
  | .fire n i => timerFire n i c
  | .reconnectDone n ok => reconnectFinish n ok c

/-- Run a sequence of loop events. -/
def runTrace (c : Ctrl) (es : List LoopEvent) : Ctrl := es.foldl stepEv c

/-- A trace is timely (realizable on a host timer queue) when event times are
nondecreasing, no event happens after an armed timer's due time without that
timer having fired or been cleared, and a fire happens exactly at its
timer's due time. -/
def timelyAux : Ctrl → Nat → List LoopEvent → Bool
  | _, _, [] => true
  | c, last, e :: es =>
    (decide (last ≤ evTime e))
    && c.timers.all (fun tm => decide (evTime e ≤ tm.due))
    && (match e with
        | .fire n i =>
          match c.timers.find? (fun tm => tm.tid = i) with
          | some tm => decide (tm.due = n)
          | none => false
        | _ => true)
    && timelyAux (stepEv c e) (evTime e) es

/-- Timeliness of a trace from a given controller state. -/
def timely (c : Ctrl) (es : List LoopEvent) : Bool := timelyAux c 0 es

/-- The synchronous prefix of `connect(realtimeSession, ...)` up to the
installation of the data-channel listeners: dispatch `INIT_SESSION`; if the
AUDIO modality is requested, acquire local audio (dispatching
`{id, hasAudio: true}` per acquired track) or throw
`Microphone access failed` (the catch block rethrows after clearing
`iceTimeoutId`, which is still null at that point); arm the first
establishment timer (delay `config.defaultIceTimeout || 30000`, guarded
callback); then `monitorConnectionState` installs the ICE handler and arms a
second establishment timer (30000 ms, unconditional callback), overwriting
the `iceTimeoutId` variable. -/
def runConnect (rs : RealtimeSession) (captureOk : Bool) (t0 : Nat)
    (defaultIceTimeout : Option Nat) : Ctrl :=
  let st := dispatchA none (.INIT_SESSION rs)
  let c : Ctrl := { session := st, iceTimeoutId := none, timers := [],
                    iceState := .new, nextTimerId := 0, attemptsInitiated := 0,
                    attemptsInFlight := 0, cleanupRuns := 0, handlerErrors := 0,
                    thrownError := none }
  if rs.modalities.contains Modality.AUDIO && !captureOk then
    { c with thrownError := some "Microphone access failed" }
  else
    let c :=
      if rs.modalities.contains Modality.AUDIO then
        { c with session := dispatchA c.session (.UPDATE_SESSION
            { SessionPatch.empty with id := some rs.id, hasAudio := some true }) }
      else c
    let iceTimeout := defaultIceTimeout.getD 30000
    let c := { c with
      timers := c.timers ++ [Timer.mk c.nextTimerId .guardedIceTimeout (t0 + iceTimeout)],
      iceTimeoutId := some c.nextTimerId,
      nextTimerId := c.nextTimerId + 1 }
    { c with
      timers := c.timers ++ [Timer.mk c.nextTimerId .plainIceTimeout (t0 + 30000)],
      iceTimeoutId := some c.nextTimerId,
      nextTimerId := c.nextTimerId + 1 }

/-- The `connectionStatus` of the stored session, if any. -/
def ctrlStatus (c : Ctrl) : Option ConnectionStatus :=
  match c.session with
  | none => none
  | some s => s.connectionStatus

/-! ### Data-channel message dispatcher -/

/-- A JSON value, the result type of the host JSON parser. -/
inductive JsonValue
  | null
  | bool (b : Bool)
  | num (q : ℚ)
  | str (s : String)
  | arr (xs : List JsonValue)
  | obj (fields : List (String × JsonValue))

/-- The literal two-character text of an empty JSON object. -/
def emptyObjectText : String := "\x7b\x7d"

/-- `ConversationItemType` enum (subset used by the dispatcher). -/
inductive ConversationItemType
  | MESSAGE
  | FUNCTION_CALL
  | FUNCTION_CALL_OUTPUT
deriving DecidableEq, Repr

/-- The `item` payload of a `response.output_item.done` event. -/
structure ConversationItem where
  type : ConversationItemType
  name : Option String
  arguments : Option String
deriving DecidableEq, Repr

/-- A recorded invocation of the external function-call handler. -/
structure FunctionCallInvocation where
  name : Option String
  args : JsonValue

/-- The recognized subset of inbound control-channel events (already parsed
from the wire by the outer `JSON.parse`); `otherEvent` covers every
unrecognized `type`. -/
inductive ServerEvent
  | inputAudioTranscriptionCompleted (transcript : String)
  | responseAudioTranscriptDone (transcript : String)
  | responseOutputItemDone (item : ConversationItem)
  | responseDone (usage : Option TokenUsage)
  | rateLimitsUpdated (rate_limits : List RateLimit)
  | otherEvent (tag : String)
deriving DecidableEq, Repr

/-- JS `Math.max(...xs)`: `none` models the `-Infinity` result on an empty
argument list. -/
def jsMathMax : List ℚ → Option ℚ
  | [] => none
  | x :: xs => some (xs.foldl max x)

/-- The data-channel `message` listener body, per recognized event type.
`jsonParse` is the host `JSON.parse` used on `item.arguments`; the returned
list records the invocations of the external `functionCallHandler`; a thrown
JSON `SyntaxError` is `Except.error`.  `now` is `Date.now()` at dispatch
time, and the rate-limit reset time is the epoch-ms value
`now + maxResetSeconds * 1000` (modelling the ISO string the code stores). -/
def handleDataChannelMessage (jsonParse : String → Option JsonValue) (now : Nat)
    (st : Option RealtimeSession) (ev : ServerEvent) :
    Except String (Option RealtimeSession × List FunctionCallInvocation) :=
  match ev with
  | .inputAudioTranscriptionCompleted tr =>
    .ok (dispatchA st (.ADD_TRANSCRIPT ⟨tr, now, .INPUT, .USER⟩), [])
  | .responseAudioTranscriptDone tr =>
    .ok (dispatchA st (.ADD_TRANSCRIPT ⟨tr, now, .OUTPUT, .ASSISTANT⟩), [])
  | .responseOutputItemDone item =>
    if item.type = .FUNCTION_CALL then
      let argText :=
        match item.arguments with
        | none => emptyObjectText
        | some a => if a = "" then emptyObjectText else a
      match jsonParse argText with
      | some v => .ok (st, [⟨item.name, v⟩])
      | none => .error "SyntaxError: JSON parse"
    else .ok (st, [])
  | .responseDone usage =>
    match usage with
    | some u => .ok (dispatchA st (.UPDATE_TOKEN_USAGE u), [])
    | none => .ok (st, [])
  | .rateLimitsUpdated rls =>
    let maxReset : Option ℚ := jsMathMax (rls.map (fun l => l.reset_seconds))
    let resetTime : Option ℚ := maxReset.map (fun m => (now : ℚ) + m * 1000)
    let isRateLimited := rls.any (fun l => decide (l.remaining ≤ 0))
    .ok (dispatchA st (.UPDATE_RATE_LIMITS rls resetTime isRateLimited), [])
  | .otherEvent _ => .ok (st, [])

/-! ### Facade operations: `sendClientEvent`, `disconnect` -/

/-- An outbound client event: its `type` tag and optional `event_id`. -/
structure ClientEvent where
  type : String
  event_id : Option String
deriving DecidableEq, Repr

/-- `sendClientEvent`: requires a session with an open data channel;
otherwise logs and drops.  `freshId` is the host `crypto.randomUUID()`
(assigned when the caller supplied no id or an empty one); `sendOk` is
whether the physical `dataChannel.send` succeeds (its failure is caught and
logged).  Returns the (unchanged) session state and the list of events put
on the wire. -/
def sendClientEvent (freshId : String) (sendOk : Bool)
    (st : Option RealtimeSession) (event : ClientEvent) :
    Option RealtimeSession × List ClientEvent :=
  match st with
  | none => (none, [])
  | some s =>
    match s.dataChannel with
    | none => (some s, [])
    | some dc =>
      if dc.readyState ≠ .«open» then (some s, [])
      else
        let newId :=
          match event.event_id with
          | none => freshId
          | some e => if e = "" then freshId else e
        let ev := { event with event_id := some newId }
        if sendOk then (some s, [ev]) else (some s, [])

/-- `disconnect()`: no-op when no session exists; otherwise runs
`cleanupWebRTCResources` (nulling the owned handles on the session object)
and dispatches `{connectionStatus: CLOSED, endTime, duration}` with
`duration = (endTime - startTime) / 1000` seconds, or `0` when `startTime`
is absent (or is the falsy epoch-0 value). -/
def disconnect (now : Nat) (st : Option RealtimeSession) :
    Option RealtimeSession :=
  match st with
  | none => none
  | some s =>
    let s := { s with mediaStream := none, dataChannel := none,
                      peer_connection := none }
    let startTimeMs : Nat := s.startTime.getD 0
    let dur : ℚ :=
      if startTimeMs ≠ 0 then ((now : ℚ) - (startTimeMs : ℚ)) / 1000 else 0
    dispatchA (some s) (.UPDATE_SESSION
      { SessionPatch.empty with
          connectionStatus := some (some .CLOSED),
          endTime := some (some now),
          duration := some (some dur) })

/-- The `endTime` of the stored session, if any. -/
def sessEndTime (st : Option RealtimeSession) : Option Nat :=
  match st with
  | none => none
  | some s => s.endTime

/-- The `connectionStatus` of the stored session, if any. -/
def sessStatus (st : Option RealtimeSession) : Option ConnectionStatus :=
  match st with
  | none => none
  | some s => s.connectionStatus

/-- Whether an event is the firing of a currently armed reconnect-delay
timer (the only way a reconnection attempt is initiated). -/
def firesReconnect (c : Ctrl) : LoopEvent → Bool
  | .fire _ i =>
    match c.timers.find? (fun tm => tm.tid = i) with
    | some tm => tm.kind = .reconnectDelay
    | none => false
  | _ => false

/-- The §4.1 table of the spec, restated: the `connectionStatus` that each
handled transport state yields immediately. -/
def specIceStatusTable : RTCIceConnectionState → Option ConnectionStatus
  | .checking => some .CONNECTING
  | .connected => some .CONNECTED
  | .completed => some .CONNECTED
  | .disconnected => some .DISCONNECTED
  | .failed => some .FAILED
  | .closed => some .CLOSED
  | .new => none

/-! ### Concrete fixtures -/

/-- A sample live session used in concrete evaluations. -/
def sampleSession : RealtimeSession :=
  { id := "session-1"
    modalities := [Modality.TEXT, Modality.AUDIO]
    connectionStatus := some .CONNECTING
    hasAudio := false
    isMuted := false
    transcripts := []
    tokenUsage := none
    rateLimits := []
    rateLimitResetTime := none
    isRateLimited := false
    startTime := some 1000
    endTime := none
    duration := none
    lastStateChange := none
    mediaStream := some ⟨1⟩
    dataChannel := some ⟨.«open»⟩
    peer_connection := some ⟨1⟩ }

/-- A model of the host `JSON.parse` fixed at the two inputs the concrete
evaluations exercise: the empty-object text parses to the empty object (true
of the host parser), and the malformed text `@@not-json@@` fails (also true
of the host parser). -/
def jsonParseAtTestInputs (s : String) : Option JsonValue :=
  if s = emptyObjectText then some (.obj []) else none

/-- A connectivity oscillation: checking, connected, then two `disconnected`
events 1000 ms apart (each arming its own 2000 ms reconnect delay), then the
two reconnect timers firing, with neither attempt yet completed. -/
def oscillationTrace : List LoopEvent :=
  [ .ice 100 .checking
  , .ice 5000 .connected
  , .ice 10000 .disconnected
  , .ice 10500 .connected
  , .ice 11000 .disconnected
  , .fire 12000 2
  , .fire 13000 3 ]

/-- A successful connection that settles at ICE state `completed`, followed
by the leaked first establishment timer firing at its 30 s due time. -/
def completedTrace : List LoopEvent :=
  [ .ice 100 .checking
  , .ice 5000 .connected
  , .ice 6000 .completed
  , .fire 30000 0 ]

/-! ## Theorems -/

/-- `Math.max` folding: the accumulator never exceeds the fold result. -/
theorem foldl_max_le_init (xs : List ℚ) (a : ℚ) : a ≤ xs.foldl max a := by
  induction xs generalizing a with
  | nil => exact le_refl a
  | cons x xs ih => exact le_trans (le_max_left a x) (ih (max a x))

/-- `Math.max` folding: the result is the accumulator or a list element. -/
theorem foldl_max_mem (xs : List ℚ) (a : ℚ) :
    xs.foldl max a = a ∨ xs.foldl max a ∈ xs := by
  induction xs generalizing a with
  | nil => exact Or.inl rfl
  | cons x xs ih =>
    rcases ih (max a x) with h | h
    · rcases max_choice a x with hm | hm
      · exact Or.inl (by rw [List.foldl_cons, h, hm])
      · exact Or.inr (by rw [List.foldl_cons, h, hm]; exact List.mem_cons_self x xs)
    · exact Or.inr (List.mem_cons_of_mem x (by rw [List.foldl_cons]; exact h))

/-- `Math.max` folding: every list element is bounded by the fold result. -/
theorem le_foldl_max (xs : List ℚ) (a x : ℚ) (hx : x ∈ xs) :
    x ≤ xs.foldl max a := by
  induction xs generalizing a with
  | nil => cases hx
  | cons y ys ih =>
    rw [List.foldl_cons]
    rcases List.mem_cons.mp hx with h | h
    · rw [h]; exact le_trans (le_max_right a y) (foldl_max_le_init ys (max a y))
    · exact ih (max a y) h

/-- `find?` skips a leading segment in which nothing matches. -/
theorem find?_skip_missed {α : Type} (p : α → Bool) (l1 l2 : List α)
    (h : l1.find? p = none) : (l1 ++ l2).find? p = l2.find? p := by
  rw [List.find?_append, h, Option.none_or]

/-- C5: the state-store transition function on a null state is a no-op
(returns null) for every recognized action other than session
initialization; session initialization succeeds on any prior state; and an
action whose type matches no recognized case throws. -/
theorem reducer_null_init_unrecognized
    (a : SessionAction) (st : Option RealtimeSession)
    (rs : RealtimeSession) (tag : String)
    (hinit : a.isInit = false) (hrec : a.isUnrecognized = false) :
    sessionReducer none a = .ok none
    ∧ sessionReducer st (.INIT_SESSION rs) = .ok (some rs)
    ∧ sessionReducer st (.unrecognized tag) =
        .error ("Unhandled action type: " ++ tag) := by
  refine ⟨?_, rfl, rfl⟩
  cases a with
  | INIT_SESSION p => simp [SessionAction.isInit] at hinit
  | unrecognized t => simp [SessionAction.isUnrecognized] at hrec
  | UPDATE_SESSION p => rfl
  | ADD_TRANSCRIPT t => rfl
  | UPDATE_TOKEN_USAGE u => rfl
  | MUTE_SESSION_AUDIO => rfl
  | UNMUTE_SESSION_AUDIO => rfl
  | UPDATE_RATE_LIMITS rl rt b => rfl

/-- Witness for C5 at concrete inputs. -/
theorem reducer_null_init_unrecognized_witness :
    SessionAction.isInit SessionAction.MUTE_SESSION_AUDIO = false
    ∧ SessionAction.isUnrecognized SessionAction.MUTE_SESSION_AUDIO = false
    ∧ (sessionReducer none SessionAction.MUTE_SESSION_AUDIO = .ok none
       ∧ sessionReducer (some sampleSession) (.INIT_SESSION sampleSession)
           = .ok (some sampleSession)
       ∧ sessionReducer (some sampleSession) (.unrecognized "BOGUS")
           = .error ("Unhandled action type: " ++ "BOGUS")) :=
  ⟨rfl, rfl,
    reducer_null_init_unrecognized SessionAction.MUTE_SESSION_AUDIO (some sampleSession)
      sampleSession "BOGUS" rfl rfl⟩

/-- C10: each recognized non-initialization action returns a new snapshot
that differs from the input only in its designated fields: ADD_TRANSCRIPT
appends one transcript, UPDATE_TOKEN_USAGE replaces `tokenUsage`,
MUTE/UNMUTE set `isMuted`, UPDATE_RATE_LIMITS replaces the three rate-limit
fields, and UPDATE_SESSION applies exactly its patch, leaving every
non-patched field (in particular `modalities`, `transcripts`, `tokenUsage`,
the rate-limit fields, `isMuted`, `startTime` and the transport handles not
named in the patch) unchanged.  The input snapshot itself is never
modified: the transition function is pure and builds a fresh record. -/
theorem reducer_frame_conditions (s : RealtimeSession) (t : Transcript)
    (u : TokenUsage) (rl : List RateLimit) (rt : Option ℚ) (b : Bool)
    (p : SessionPatch) :
    sessionReducer (some s) (.ADD_TRANSCRIPT t) =
        .ok (some { s with transcripts := s.transcripts ++ [t] })
    ∧ sessionReducer (some s) (.UPDATE_TOKEN_USAGE u) =
        .ok (some { s with tokenUsage := some u })
    ∧ sessionReducer (some s) SessionAction.MUTE_SESSION_AUDIO =
        .ok (some { s with isMuted := true })
    ∧ sessionReducer (some s) SessionAction.UNMUTE_SESSION_AUDIO =
        .ok (some { s with isMuted := false })
    ∧ sessionReducer (some s) (.UPDATE_RATE_LIMITS rl rt b) =
        .ok (some { s with rateLimits := rl, rateLimitResetTime := rt,
                           isRateLimited := b })
    ∧ sessionReducer (some s) (.UPDATE_SESSION p) = .ok (some (applyPatch s p))
    ∧ (applyPatch s p).modalities = s.modalities
    ∧ (applyPatch s p).transcripts = s.transcripts
    ∧ (applyPatch s p).tokenUsage = s.tokenUsage
    ∧ (applyPatch s p).rateLimits = s.rateLimits
    ∧ (applyPatch s p).rateLimitResetTime = s.rateLimitResetTime
    ∧ (applyPatch s p).isRateLimited = s.isRateLimited
    ∧ (applyPatch s p).isMuted = s.isMuted
    ∧ (applyPatch s p).startTime = s.startTime
    ∧ (applyPatch s p).dataChannel = s.dataChannel
    ∧ (applyPatch s p).peer_connection = s.peer_connection :=
  ⟨rfl, rfl, rfl, rfl, rfl, rfl, rfl, rfl, rfl, rfl, rfl, rfl, rfl, rfl,
   rfl, rfl⟩

/-- C7: `sendClientEvent` with no session, or with a session whose data
channel is missing or in any non-open ready state, drops the event: nothing
goes on the wire, nothing is buffered, and the session state is returned
unchanged (the function is total, so no exception propagates). -/
theorem sendClientEvent_drops (freshId : String) (sendOk : Bool)
    (s : RealtimeSession) (ev : ClientEvent) :
    sendClientEvent freshId sendOk none ev = (none, [])
    ∧ sendClientEvent freshId sendOk (some { s with dataChannel := none }) ev
        = (some { s with dataChannel := none }, [])
    ∧ sendClientEvent freshId sendOk
        (some { s with dataChannel := some ⟨.connecting⟩ }) ev
        = (some { s with dataChannel := some ⟨.connecting⟩ }, [])
    ∧ sendClientEvent freshId sendOk
        (some { s with dataChannel := some ⟨.closing⟩ }) ev
        = (some { s with dataChannel := some ⟨.closing⟩ }, [])
    ∧ sendClientEvent freshId sendOk
        (some { s with dataChannel := some ⟨.closed⟩ }) ev
        = (some { s with dataChannel := some ⟨.closed⟩ }, []) :=
  ⟨rfl, rfl, rfl, rfl, rfl⟩

/-- `setStatus` touches only the session. -/
@[simp] theorem setStatus_timers (c : Ctrl) (st : ConnectionStatus) (n : Nat) :
    (setStatus c st n).timers = c.timers := rfl

@[simp] theorem setStatus_attemptsInitiated (c : Ctrl) (st : ConnectionStatus)
    (n : Nat) : (setStatus c st n).attemptsInitiated = c.attemptsInitiated := rfl

@[simp] theorem setStatus_attemptsInFlight (c : Ctrl) (st : ConnectionStatus)
    (n : Nat) : (setStatus c st n).attemptsInFlight = c.attemptsInFlight := rfl

@[simp] theorem setStatus_cleanupRuns (c : Ctrl) (st : ConnectionStatus)
    (n : Nat) : (setStatus c st n).cleanupRuns = c.cleanupRuns := rfl

/-- `clearTimeout` touches only the timer bookkeeping. -/
@[simp] theorem clearIceTimeout_attemptsInitiated (c : Ctrl) :
    (clearIceTimeout c).attemptsInitiated = c.attemptsInitiated := by
  cases h : c.iceTimeoutId <;> simp [clearIceTimeout, h]

@[simp] theorem clearIceTimeout_attemptsInFlight (c : Ctrl) :
    (clearIceTimeout c).attemptsInFlight = c.attemptsInFlight := by
  cases h : c.iceTimeoutId <;> simp [clearIceTimeout, h]

@[simp] theorem clearIceTimeout_cleanupRuns (c : Ctrl) :
    (clearIceTimeout c).cleanupRuns = c.cleanupRuns := by
  cases h : c.iceTimeoutId <;> simp [clearIceTimeout, h]

/-- `cleanupWebRTCResources` touches only the session handles and its own
run counter. -/
@[simp] theorem runCleanup_timers (c : Ctrl) :
    (runCleanup c).timers = c.timers := by
  cases h : c.session <;> simp [runCleanup, h]

@[simp] theorem runCleanup_attemptsInitiated (c : Ctrl) :
    (runCleanup c).attemptsInitiated = c.attemptsInitiated := by
  cases h : c.session <;> simp [runCleanup, h]

@[simp] theorem runCleanup_attemptsInFlight (c : Ctrl) :
    (runCleanup c).attemptsInFlight = c.attemptsInFlight := by
  cases h : c.session <;> simp [runCleanup, h]

/-- In `clearIceTimeout` the timer list can only shrink. -/
theorem clearIceTimeout_timers_subset (c : Ctrl) :
    (clearIceTimeout c).timers ⊆ c.timers := by
  cases h : c.iceTimeoutId with
  | none => simp [clearIceTimeout, h]
  | some t => simp only [clearIceTimeout, h]; exact List.filter_subset' _

/-- C1: on a live session the ICE connectivity-state handler maps each
transport state exactly per the §4.1 table and produces no other status:
`checking` yields CONNECTING (timer kept, no cleanup); `connected` and
`completed` yield CONNECTED and clear the armed establishment timer (no
cleanup); `disconnected` yields DISCONNECTED immediately and arms a single
2000 ms delay whose firing yields RECONNECTING together with a reconnection
attempt; `failed` yields FAILED, clears the timer and runs cleanup;
`closed` yields CLOSED, clears the timer and runs cleanup. -/
theorem iceHandler_status_table (c : Ctrl) (s : RealtimeSession) (t tid : Nat)
    (hs : c.session = some s) (ht : c.iceTimeoutId = some tid)
    (hfresh : c.timers.find? (fun tm => tm.tid = c.nextTimerId) = none) :
    (ctrlStatus (iceHandler t .checking c) = some .CONNECTING
      ∧ (iceHandler t .checking c).timers = c.timers
      ∧ (iceHandler t .checking c).iceTimeoutId = some tid
      ∧ (iceHandler t .checking c).cleanupRuns = c.cleanupRuns)
    ∧ (ctrlStatus (iceHandler t .connected c) = some .CONNECTED
      ∧ (iceHandler t .connected c).iceTimeoutId = none
      ∧ (iceHandler t .connected c).timers
          = c.timers.filter (fun tm => tm.tid ≠ tid)
      ∧ (iceHandler t .connected c).cleanupRuns = c.cleanupRuns)
    ∧ (ctrlStatus (iceHandler t .completed c) = some .CONNECTED
      ∧ (iceHandler t .completed c).iceTimeoutId = none
      ∧ (iceHandler t .completed c).timers
          = c.timers.filter (fun tm => tm.tid ≠ tid)
      ∧ (iceHandler t .completed c).cleanupRuns = c.cleanupRuns)
    ∧ (ctrlStatus (iceHandler t .disconnected c) = some .DISCONNECTED
      ∧ (iceHandler t .disconnected c).timers
          = c.timers ++ [⟨c.nextTimerId, .reconnectDelay, t + 2000⟩]
      ∧ (iceHandler t .disconnected c).iceTimeoutId = some tid
      ∧ (iceHandler t .disconnected c).cleanupRuns = c.cleanupRuns
      ∧ ctrlStatus (timerFire (t + 2000) c.nextTimerId
            (iceHandler t .disconnected c)) = some .RECONNECTING
      ∧ (timerFire (t + 2000) c.nextTimerId
            (iceHandler t .disconnected c)).attemptsInitiated
          = c.attemptsInitiated + 1)
    ∧ (ctrlStatus (iceHandler t .failed c) = some .FAILED
      ∧ (iceHandler t .failed c).iceTimeoutId = none
      ∧ (iceHandler t .failed c).cleanupRuns = c.cleanupRuns + 1)
    ∧ (ctrlStatus (iceHandler t .closed c) = some .CLOSED
      ∧ (iceHandler t .closed c).iceTimeoutId = none
      ∧ (iceHandler t .closed c).cleanupRuns = c.cleanupRuns + 1) := by
  obtain ⟨sess, ito, tms, ist2, nid, ai, af, cr, he, te⟩ := c
  dsimp only at hs ht hfresh
  subst hs ht
  have hfind : (tms ++ [(⟨nid, .reconnectDelay, t + 2000⟩ : Timer)]).find?
      (fun tm => tm.tid = nid) = some ⟨nid, .reconnectDelay, t + 2000⟩ := by
    rw [ find?_skip_missed (fun tm => tm.tid = nid) tms
      [⟨nid, .reconnectDelay, t + 2000⟩] hfresh]
    simp [List.find?]
  refine ⟨⟨rfl, rfl, rfl, rfl⟩, ⟨rfl, rfl, rfl, rfl⟩, ⟨rfl, rfl, rfl, rfl⟩,
    ⟨rfl, rfl, rfl, rfl, ?_, ?_⟩, ⟨rfl, rfl, rfl⟩, ⟨rfl, rfl, rfl⟩⟩
  · simp only [iceHandler, setStatus, dispatchA, sessionReducer, timerFire]
    rw [hfind]
    rfl
  · simp only [iceHandler, setStatus, dispatchA, sessionReducer, timerFire]
    rw [hfind]

/-- Witness for C1 at the controller state of a concrete `connect()`. -/
theorem iceHandler_status_table_witness :
    (runConnect sampleSession true 0 none).session
        = some { sampleSession with hasAudio := true }
    ∧ (runConnect sampleSession true 0 none).iceTimeoutId = some 1
    ∧ (runConnect sampleSession true 0 none).timers.find?
        (fun tm => tm.tid = (runConnect sampleSession true 0 none).nextTimerId)
        = none
    ∧ ctrlStatus (iceHandler 50 .checking (runConnect sampleSession true 0 none))
        = some .CONNECTING := by
  refine ⟨rfl, rfl, rfl, ?_⟩
  exact (iceHandler_status_table (runConnect sampleSession true 0 none)
    { sampleSession with hasAudio := true } 50 1 rfl rfl rfl).1.1

/-- C2 counterexample: on the timely oscillation trace (two `disconnected`
events 1000 ms apart, each within the other's 2000 ms delay window), two
reconnection attempts are initiated and both are simultaneously in flight —
the claimed "exactly one attempt, at most one in flight" fails on the code,
which tracks no in-progress flag. -/
theorem reconnect_two_attempts_counterexample :
    timely (runConnect sampleSession true 0 none) oscillationTrace = true
    ∧ (runTrace (runConnect sampleSession true 0 none)
        oscillationTrace).attemptsInitiated = 2
    ∧ (runTrace (runConnect sampleSession true 0 none)
        oscillationTrace).attemptsInFlight = 2 :=
  ⟨rfl, rfl, rfl⟩

/-- C2 amended: each `disconnected` event arms exactly one 2000 ms
reconnect delay (and initiates nothing immediately); no other transport
state arms any timer; a reconnection attempt is initiated exactly when an
armed reconnect-delay timer fires, which also adds one in-flight attempt —
so one attempt per `disconnected` event, with no bound on how many are
simultaneously in flight. -/
theorem reconnect_per_disconnect (c : Ctrl) (t n i : Nat) (e : LoopEvent)
    (ist : RTCIceConnectionState) (hist : ist ≠ .disconnected) :
    (iceHandler t .disconnected c).timers
        = c.timers ++ [⟨c.nextTimerId, .reconnectDelay, t + 2000⟩]
    ∧ (iceHandler t .disconnected c).attemptsInitiated = c.attemptsInitiated
    ∧ (iceHandler t ist c).timers ⊆ c.timers
    ∧ (stepEv c e).attemptsInitiated
        = c.attemptsInitiated + (if firesReconnect c e then 1 else 0)
    ∧ (timerFire n i c).attemptsInFlight
        = c.attemptsInFlight + (if firesReconnect c (.fire n i) then 1 else 0) := by
  refine ⟨rfl, rfl, ?_, ?_, ?_⟩
  · cases ist with
    | disconnected => exact absurd rfl hist
    | new => exact fun _ hx => hx
    | checking => exact fun _ hx => hx
    | connected =>
      exact fun x hx =>
        clearIceTimeout_timers_subset { c with iceState := .connected } hx
    | completed =>
      exact fun x hx =>
        clearIceTimeout_timers_subset { c with iceState := .completed } hx
    | failed =>
      intro x hx
      rw [show (iceHandler t .failed c).timers
            = (clearIceTimeout { c with iceState := .failed }).timers from by
          show (runCleanup _).timers = _
          rw [runCleanup_timers, setStatus_timers]] at hx
      exact clearIceTimeout_timers_subset { c with iceState := .failed } hx
    | closed =>
      intro x hx
      rw [show (iceHandler t .closed c).timers
            = (clearIceTimeout { c with iceState := .closed }).timers from by
          show (runCleanup _).timers = _
          rw [runCleanup_timers, setStatus_timers]] at hx
      exact clearIceTimeout_timers_subset { c with iceState := .closed } hx
  · cases e with
    | ice m st2 =>
      have hf : firesReconnect c (.ice m st2) = false := rfl
      rw [hf]
      cases st2 <;>
        simp [stepEv, iceHandler, runCleanup_attemptsInitiated,
          setStatus_attemptsInitiated, clearIceTimeout_attemptsInitiated]
    | fire m j =>
      show (timerFire m j c).attemptsInitiated = _
      unfold timerFire firesReconnect
      cases hf : c.timers.find? (fun tm => tm.tid = j) with
      | none => simp [hf]
      | some tm =>
        cases hk : tm.kind with
        | guardedIceTimeout =>
          simp only [hf, hk]
          split <;> simp
        | plainIceTimeout => simp [hf, hk]
        | reconnectDelay => simp [hf, hk]
    | reconnectDone m ok =>
      have hf : firesReconnect c (.reconnectDone m ok) = false := rfl
      rw [hf]
      cases ok <;> simp [stepEv, reconnectFinish]
  · unfold timerFire firesReconnect
    cases hf : c.timers.find? (fun tm => tm.tid = i) with
    | none => simp [hf]
    | some tm =>
      cases hk : tm.kind with
      | guardedIceTimeout =>
        simp only [hf, hk]
        split <;> simp
      | plainIceTimeout => simp [hf, hk]
      | reconnectDelay => simp [hf, hk]

/-- Witness for C2's amended theorem at a concrete state: after checking,
connected, and one `disconnected`, firing the armed reconnect timer
initiates exactly one attempt. -/
theorem reconnect_per_disconnect_witness :
    (RTCIceConnectionState.checking ≠ RTCIceConnectionState.disconnected)
    ∧ (stepEv (runTrace (runConnect sampleSession true 0 none)
          (oscillationTrace.take 3)) (.fire 12000 2)).attemptsInitiated
        = (runTrace (runConnect sampleSession true 0 none)
            (oscillationTrace.take 3)).attemptsInitiated
          + (if firesReconnect (runTrace (runConnect sampleSession true 0 none)
              (oscillationTrace.take 3)) (.fire 12000 2) then 1 else 0) :=
  ⟨by decide,
   (reconnect_per_disconnect
      (runTrace (runConnect sampleSession true 0 none) (oscillationTrace.take 3))
      0 12000 2 (.fire 12000 2) .checking (by decide)).2.2.2.1⟩

/-- C3 (code-bug evaluation): `connect()` arms two establishment timers and
overwrites the `iceTimeoutId` variable with the second id, so the first
timer is never cancellable.  On a timely trace where the connection
succeeds and the ICE state settles at `completed` (which the handler itself
maps to CONNECTED), the first timer is still armed after CONNECTED is
reached — so the establishment timer is not cancelled at the first of
{CONNECTED, FAILED, CLOSED} — and when it fires at its 30 s due time its
guard (`iceConnectionState !== connected`) passes, running an
establishment-timeout cleanup after a successful connection. -/
theorem establishment_timer_leak :
    timely (runConnect sampleSession true 0 none) completedTrace = true
    ∧ ctrlStatus (runTrace (runConnect sampleSession true 0 none)
        (completedTrace.take 2)) = some .CONNECTED
    ∧ (runTrace (runConnect sampleSession true 0 none)
        (completedTrace.take 2)).timers = [⟨0, .guardedIceTimeout, 30000⟩]
    ∧ ctrlStatus (runTrace (runConnect sampleSession true 0 none)
        completedTrace) = some .CONNECTED
    ∧ (runTrace (runConnect sampleSession true 0 none)
        completedTrace).cleanupRuns = 1 :=
  ⟨rfl, rfl, rfl, rfl, rfl⟩

/-- C4 counterexample: when local audio capture fails, `connect()` throws
the microphone-access error, but the session dispatched by the initial
`INIT_SESSION` stays in the store — the caller does not observe the
never-connected (null-session) state the claim demands. -/
theorem connect_capture_failure_leaves_session :
    (runConnect sampleSession false 0 none).thrownError
        = some "Microphone access failed"
    ∧ (runConnect sampleSession false 0 none).session = some sampleSession
    ∧ (runConnect sampleSession false 0 none).session ≠ none :=
  ⟨rfl, rfl, fun h => Option.noConfusion h⟩

/-- C4 amended: on a capture failure during an AUDIO-modality `connect()`,
the call rejects with the microphone-access error and no timers, attempts
or cleanups are left behind — but the session initialized at the start of
`connect()` remains in the store (the state is not rolled back to null). -/
theorem connect_capture_failure_behavior (rs : RealtimeSession) (t0 : Nat)
    (cfg : Option Nat) (h : rs.modalities.contains Modality.AUDIO = true) :
    (runConnect rs false t0 cfg).thrownError = some "Microphone access failed"
    ∧ (runConnect rs false t0 cfg).session = some rs
    ∧ (runConnect rs false t0 cfg).timers = []
    ∧ (runConnect rs false t0 cfg).attemptsInitiated = 0
    ∧ (runConnect rs false t0 cfg).cleanupRuns = 0 := by
  have hmem : Modality.AUDIO ∈ rs.modalities := by simpa using h
  refine ⟨?_, ?_, ?_, ?_, ?_⟩ <;>
    simp [runConnect, dispatchA, sessionReducer, h, hmem]

/-- Witness for C4's amended theorem at a concrete session. -/
theorem connect_capture_failure_behavior_witness :
    sampleSession.modalities.contains Modality.AUDIO = true
    ∧ (runConnect sampleSession false 0 none).thrownError
        = some "Microphone access failed"
    ∧ (runConnect sampleSession false 0 none).session = some sampleSession
    ∧ (runConnect sampleSession false 0 none).timers = []
    ∧ (runConnect sampleSession false 0 none).attemptsInitiated = 0
    ∧ (runConnect sampleSession false 0 none).cleanupRuns = 0 :=
  ⟨rfl, connect_capture_failure_behavior sampleSession 0 none rfl⟩

/-- C9 (code-bug evaluation): `disconnect()` with no session is a no-op,
and on a live session it sets CLOSED with `duration = (end - start)/1000`;
but because the session is never removed from the store (although the
default `removeAfterConnectionClose: true` and the log line say it is), a
second call finds the session still present, overwrites `endTime` with the
later time and recomputes `duration` — `endTime` is not set only once. -/
theorem disconnect_twice_overwrites_endTime :
    disconnect 5000 none = none
    ∧ sessEndTime (disconnect 5000 (some sampleSession)) = some 5000
    ∧ sessStatus (disconnect 5000 (some sampleSession)) = some .CLOSED
    ∧ (disconnect 5000 (some sampleSession)).map (fun s => s.duration)
        = some (some 4)
    ∧ sessEndTime (disconnect 7000 (disconnect 5000 (some sampleSession)))
        = some 7000
    ∧ sessStatus (disconnect 7000 (disconnect 5000 (some sampleSession)))
        = some .CLOSED
    ∧ (disconnect 7000 (disconnect 5000 (some sampleSession))).map
        (fun s => s.duration) = some (some 6)
    ∧ sessEndTime (disconnect 7000 (disconnect 5000 (some sampleSession)))
        ≠ sessEndTime (disconnect 5000 (some sampleSession)) := by
  refine ⟨rfl, rfl, rfl, ?_, rfl, rfl, ?_, ?_⟩
  · show some (some ((5000 - 1000 : ℚ) / 1000)) = some (some 4)
    norm_num
  · show some (some ((7000 - 1000 : ℚ) / 1000)) = some (some 6)
    norm_num
  · intro h
    rw [show sessEndTime (disconnect 7000 (disconnect 5000 (some sampleSession)))
          = some 7000 from rfl,
        show sessEndTime (disconnect 5000 (some sampleSession))
          = some 5000 from rfl] at h
    exact absurd (Option.some.inj h) (by norm_num)

/-- C6: a `rate_limits.updated` event with a non-empty list replaces
`rateLimits` wholesale, sets `rateLimitResetTime` to now plus 1000 times
the maximum `reset_seconds` over all entries (the maximum is an entry's
value and bounds every entry), and sets `isRateLimited` exactly when some
entry has `remaining ≤ 0`; in particular the concrete event
`[{remaining: 0, reset_seconds: 10}, {remaining: 5, reset_seconds: 60}]`
yields `isRateLimited = true` and reset time `now + 60000 ms` (60 s, not
10 s). -/
theorem rate_limits_updated_spec (jsonParse : String → Option JsonValue)
    (now : Nat) (s : RealtimeSession) (l : RateLimit) (ls : List RateLimit) :
    ∃ s' m,
      handleDataChannelMessage jsonParse now (some s)
          (.rateLimitsUpdated (l :: ls)) = .ok (some s', [])
      ∧ s'.rateLimits = l :: ls
      ∧ m ∈ (l :: ls).map (fun r => r.reset_seconds)
      ∧ (∀ r ∈ l :: ls, r.reset_seconds ≤ m)
      ∧ s'.rateLimitResetTime = some ((now : ℚ) + m * 1000)
      ∧ (s'.isRateLimited = true ↔ ∃ r ∈ l :: ls, r.remaining ≤ 0)
      ∧ (∃ s2, handleDataChannelMessage jsonParse now (some s)
            (.rateLimitsUpdated [⟨"requests", 0, 10⟩, ⟨"tokens", 5, 60⟩])
            = .ok (some s2, [])
          ∧ s2.isRateLimited = true
          ∧ s2.rateLimitResetTime = some ((now : ℚ) + 60000)) := by
  refine ⟨_, (ls.map (fun r => r.reset_seconds)).foldl max l.reset_seconds,
    rfl, rfl, ?_, ?_, ?_, ?_, ?_⟩
  · rcases foldl_max_mem (ls.map (fun r => r.reset_seconds)) l.reset_seconds
      with h | h
    · rw [List.map_cons, h]; exact List.mem_cons_self _ _
    · rw [List.map_cons]; exact List.mem_cons_of_mem _ h
  · intro r hr
    rcases List.mem_cons.mp hr with h | h
    · rw [h]; exact foldl_max_le_init _ _
    · exact le_foldl_max _ _ _ (List.mem_map_of_mem _ h)
  · rfl
  · simp [List.any_eq_true]
  · refine ⟨_, rfl, rfl, ?_⟩
    show some ((now : ℚ) + max 10 60 * 1000) = some ((now : ℚ) + 60000)
    rw [max_eq_right (by norm_num : (10 : ℚ) ≤ 60)]
    norm_num

/-- C8 counterexample: for a function-call item whose `arguments` string is
non-empty but malformed, the dispatcher throws the JSON parse error
instead of substituting an empty object (the `|| \x7b\x7d` default applies
only to an absent or empty `arguments`).  The modelled host parser is fixed
at the two inputs used: it parses the empty-object text and rejects the
malformed text, as `JSON.parse` does. -/
theorem function_call_bad_json_throws :
    jsonParseAtTestInputs emptyObjectText = some (.obj [])
    ∧ jsonParseAtTestInputs "@@not-json@@" = none
    ∧ handleDataChannelMessage jsonParseAtTestInputs 0 (some sampleSession)
        (.responseOutputItemDone
          ⟨.FUNCTION_CALL, some "doThing", some "@@not-json@@"⟩)
        = .error "SyntaxError: JSON parse" :=
  ⟨rfl, rfl, rfl⟩

/-- C8 amended: for a function-call item the external handler is invoked
with the item's name and the parsed arguments; when `arguments` is absent
or the empty string the empty-object text is parsed and the handler
receives the empty object; but when `arguments` is non-empty and fails to
parse, the JSON error propagates out of the dispatcher (the handler is not
invoked with an empty object). -/
theorem function_call_dispatch (parse : String → Option JsonValue) (now : Nat)
    (st : Option RealtimeSession) (nm : Option String) (a : String)
    (v : JsonValue)
    (hp : parse emptyObjectText = some (.obj [])) (ha : a ≠ "") :
    handleDataChannelMessage parse now st
        (.responseOutputItemDone ⟨.FUNCTION_CALL, nm, none⟩)
      = .ok (st, [⟨nm, .obj []⟩])
    ∧ handleDataChannelMessage parse now st
        (.responseOutputItemDone ⟨.FUNCTION_CALL, nm, some ""⟩)
      = .ok (st, [⟨nm, .obj []⟩])
    ∧ (parse a = some v →
        handleDataChannelMessage parse now st
          (.responseOutputItemDone ⟨.FUNCTION_CALL, nm, some a⟩)
        = .ok (st, [⟨nm, v⟩]))
    ∧ (parse a = none →
        handleDataChannelMessage parse now st
          (.responseOutputItemDone ⟨.FUNCTION_CALL, nm, some a⟩)
        = .error "SyntaxError: JSON parse") := by
  refine ⟨?_, ?_, ?_, ?_⟩
  · simp [handleDataChannelMessage, hp]
  · simp [handleDataChannelMessage, hp]
  · intro hv; simp [handleDataChannelMessage, ha, hv]
  · intro hv; simp [handleDataChannelMessage, ha, hv]

/-- Witness for C8's amended theorem at concrete inputs. -/
theorem function_call_dispatch_witness :
    jsonParseAtTestInputs emptyObjectText = some (.obj [])
    ∧ ("x" : String) ≠ ""
    ∧ handleDataChannelMessage jsonParseAtTestInputs 0 (some sampleSession)
        (.responseOutputItemDone ⟨.FUNCTION_CALL, some "fn", none⟩)
      = .ok (some sampleSession, [⟨some "fn", .obj []⟩]) :=
  ⟨rfl, by decide,
   (function_call_dispatch jsonParseAtTestInputs 0 (some sampleSession)
      (some "fn") "x" (.obj []) rfl (by decide)).1⟩

end OpenAIRealtimeWebRTC
